import Mathlib

/-!
Verification of the AWS Enterprise Landing Zone cost calculator
(`scripts/pre-deployment/cost-calculator.py`).

The Python module is pure arithmetic over an organization profile and a
fixed pricing table.  We embed it shallowly: Python `float` arithmetic is
modelled by exact rationals (`ℚ`), Python `int` by `ℤ`, and Python's
truncating `int()` conversion by `pythonInt` below.  Fallible operations
(division, which raises `ZeroDivisionError` in Python when the denominator
is zero) are additionally modelled by `pyDiv : ℚ → ℚ → Option ℚ` in the
`_checked` variants of the calculators.
-/

namespace LandingZone

set_option genSizeOfSpec false in
/-- The `OrganizationProfile` dataclass: the input describing the deployment. -/
structure OrganizationProfile where
  name : String
  accounts_count : ℤ
  employees : ℤ
  regions : List String
  compliance_requirements : List String
  expected_data_gb_monthly : ℤ
  business_hours_only : Bool := false
  development_accounts_ratio : ℚ := 0.3

set_option genSizeOfSpec false in
/-- The `ServiceCost` dataclass: the normalized output of one calculator. -/
structure ServiceCost where
  service_name : String
  monthly_cost : ℚ
  annual_cost : ℚ
  cost_drivers : List String
  optimization_potential : ℚ
  cost_tier : String := "standard"

/-- The §3 invariants on an `OrganizationProfile`: positive account and employee
counts, non-empty region list, ratio in `[0,1]`, non-negative data volume. -/
def Valid (p : OrganizationProfile) : Prop :=
  1 ≤ p.accounts_count ∧ 1 ≤ p.employees ∧ p.regions ≠ [] ∧
  0 ≤ p.development_accounts_ratio ∧ p.development_accounts_ratio ≤ 1 ∧
  0 ≤ p.expected_data_gb_monthly

instance (p : OrganizationProfile) : Decidable (Valid p) := by
  unfold Valid; infer_instance

-- `AWSPricing` constants (US-East-1, September 2024), verbatim from the
-- source's class attributes.
namespace AWSPricing

def CONTROL_TOWER_BASE : ℚ := 89.10

def GUARDDUTY_BASE_PER_ACCOUNT : ℚ := 15.60
def GUARDDUTY_CLOUDTRAIL_PER_100K_EVENTS : ℚ := 0.10
def GUARDDUTY_DNS_PER_GB : ℚ := 0.50

def CONFIG_ITEM_PRICE : ℚ := 0.003
def CONFIG_RULE_EVALUATION_PRICE : ℚ := 0.001
def CONFIG_TYPICAL_PER_ACCOUNT : ℚ := 23.40

def TGW_ATTACHMENT_HOURLY : ℚ := 0.05
def TGW_DATA_PROCESSING_PER_GB : ℚ := 0.02

def CLOUDTRAIL_DATA_EVENTS_PER_100K : ℚ := 0.10
def CLOUDTRAIL_INSIGHTS_PER_100K : ℚ := 0.35
def CLOUDTRAIL_TYPICAL_MONTHLY : ℚ := 67.50

def CLOUDWATCH_LOG_INGESTION_PER_GB : ℚ := 0.50
def CLOUDWATCH_LOG_STORAGE_PER_GB_MONTH : ℚ := 0.03
def CLOUDWATCH_TYPICAL_PER_ACCOUNT : ℚ := 7.89

def SECURITY_HUB_FINDING_INGESTION_PER_100K : ℚ := 0.30
def SECURITY_HUB_COMPLIANCE_CHECKS_PER_100K : ℚ := 0.10

def AWS_BACKUP_STORAGE_PER_GB_MONTH : ℚ := 0.05
def AWS_BACKUP_CROSS_REGION_COPY_PER_GB : ℚ := 0.02

end AWSPricing

/-- Python's `int()` conversion on a real value: truncation toward zero. -/
def pythonInt (q : ℚ) : ℤ := if 0 ≤ q then ⌊q⌋ else ⌈q⌉

/-- Python division: raises `ZeroDivisionError` when the denominator is
zero, modelled as `none`. -/
def pyDiv (a b : ℚ) : Option ℚ := if b = 0 then none else some (a / b)

/-! ### The eight service calculators (`LandingZoneCostCalculator` methods).
Each local variable of a calculator body is lifted to a top-level
definition so that theorems can speak about individual cost terms. -/

/-- Embeds `calculate_control_tower_costs`: flat base price, fixed pricing. -/
def calculate_control_tower_costs (_p : OrganizationProfile) : ServiceCost :=
  let monthly_cost := AWSPricing.CONTROL_TOWER_BASE
  { service_name := "AWS Control Tower"
    monthly_cost := monthly_cost
    annual_cost := monthly_cost * 12
    cost_drivers :=
      [ "Base Control Tower service"
      , "Automated guardrails and compliance monitoring"
      , "Account Factory for automated provisioning"
      , "Service Catalog integration" ]
    optimization_potential := 0
    cost_tier := "enterprise" }

/-- GuardDuty `base_monthly = GUARDDUTY_BASE_PER_ACCOUNT * accounts_count`. -/
def guardduty_base_monthly (p : OrganizationProfile) : ℚ :=
  AWSPricing.GUARDDUTY_BASE_PER_ACCOUNT * (p.accounts_count : ℚ)

/-- GuardDuty `events_per_month = expected_data_gb_monthly * 100`. -/
def guardduty_events_per_month (p : OrganizationProfile) : ℚ :=
  (p.expected_data_gb_monthly : ℚ) * 100

/-- GuardDuty `cloudtrail_events_cost = (events_per_month / 100000) * price`. -/
def guardduty_cloudtrail_events_cost (p : OrganizationProfile) : ℚ :=
  (guardduty_events_per_month p / 100000) * AWSPricing.GUARDDUTY_CLOUDTRAIL_PER_100K_EVENTS

/-- GuardDuty `dns_logs_cost = expected_data_gb_monthly * GUARDDUTY_DNS_PER_GB`. -/
def guardduty_dns_logs_cost (p : OrganizationProfile) : ℚ :=
  (p.expected_data_gb_monthly : ℚ) * AWSPricing.GUARDDUTY_DNS_PER_GB

def guardduty_cost_drivers : List String :=
  [ "Base GuardDuty per account"
  , "CloudTrail event analysis"
  , "DNS log analysis"
  , "Threat intelligence feeds and ML model inference" ]

/-- Embeds `calculate_guardduty_costs`. -/
def calculate_guardduty_costs (p : OrganizationProfile) : ServiceCost :=
  let monthly_cost := guardduty_base_monthly p + guardduty_cloudtrail_events_cost p +
    guardduty_dns_logs_cost p
  { service_name := "Amazon GuardDuty"
    monthly_cost := monthly_cost
    annual_cost := monthly_cost * 12
    cost_drivers := guardduty_cost_drivers
    optimization_potential := 0.20
    cost_tier := "premium" }

/-- Config `total_config_items = 500 * accounts_count`. -/
def config_total_items (p : OrganizationProfile) : ℤ :=
  500 * p.accounts_count

/-- Config `rule_evaluations_per_month = accounts_count * 50 * 4 * 30`. -/
def config_rule_evaluations_per_month (p : OrganizationProfile) : ℤ :=
  p.accounts_count * 50 * 4 * 30

/-- Embeds `calculate_config_costs`. -/
def calculate_config_costs (p : OrganizationProfile) : ServiceCost :=
  let monthly_cost :=
    (config_total_items p : ℚ) * AWSPricing.CONFIG_ITEM_PRICE +
    (config_rule_evaluations_per_month p : ℚ) * AWSPricing.CONFIG_RULE_EVALUATION_PRICE
  { service_name := "AWS Config"
    monthly_cost := monthly_cost
    annual_cost := monthly_cost * 12
    cost_drivers :=
      [ "Configuration items recorded monthly"
      , "Rule evaluations monthly"
      , "Compliance monitoring across frameworks"
      , "Configuration history and snapshots" ]
    optimization_potential := 0.25
    cost_tier := "standard" }

/-- Transit Gateway `total_attachments = accounts_count * 2 * len(regions)`
(2 attachments per account, multiplied by the region count). -/
def tgw_total_attachments (p : OrganizationProfile) : ℤ :=
  p.accounts_count * 2 * (p.regions.length : ℤ)

/-- Transit Gateway `attachment_cost = attachments * hourly * (24*30)`. -/
def tgw_attachment_cost (p : OrganizationProfile) : ℚ :=
  (tgw_total_attachments p : ℚ) * AWSPricing.TGW_ATTACHMENT_HOURLY * (24 * 30)

/-- Transit Gateway `tgw_data_gb = expected_data_gb_monthly * 0.7`. -/
def tgw_data_gb (p : OrganizationProfile) : ℚ :=
  (p.expected_data_gb_monthly : ℚ) * 0.7

/-- Transit Gateway `data_processing_cost = tgw_data_gb * price_per_gb`. -/
def tgw_data_processing_cost (p : OrganizationProfile) : ℚ :=
  tgw_data_gb p * AWSPricing.TGW_DATA_PROCESSING_PER_GB

/-- Embeds `calculate_transit_gateway_costs`. -/
def calculate_transit_gateway_costs (p : OrganizationProfile) : ServiceCost :=
  let monthly_cost := tgw_attachment_cost p + tgw_data_processing_cost p
  { service_name := "AWS Transit Gateway"
    monthly_cost := monthly_cost
    annual_cost := monthly_cost * 12
    cost_drivers :=
      [ "VPC attachments across regions"
      , "Data processing at $0.02/GB"
      , "Cross-AZ data transfer costs"
      , "Route table associations and propagations" ]
    optimization_potential := 0.30
    cost_tier := "standard" }

/-- CloudTrail `data_events_per_month = expected_data_gb_monthly * 50`. -/
def cloudtrail_data_events_per_month (p : OrganizationProfile) : ℚ :=
  (p.expected_data_gb_monthly : ℚ) * 50

/-- CloudTrail `data_events_cost = (events / 100000) * price`. -/
def cloudtrail_data_events_cost (p : OrganizationProfile) : ℚ :=
  (cloudtrail_data_events_per_month p / 100000) * AWSPricing.CLOUDTRAIL_DATA_EVENTS_PER_100K

/-- CloudTrail `insights_cost = (events / 100000) * insights_price * 0.1`. -/
def cloudtrail_insights_cost (p : OrganizationProfile) : ℚ :=
  (cloudtrail_data_events_per_month p / 100000) * AWSPricing.CLOUDTRAIL_INSIGHTS_PER_100K * 0.1

def cloudtrail_cost_drivers : List String :=
  [ "Organization-wide CloudTrail with management events"
  , "Data events volume"
  , "CloudTrail Insights for anomaly detection (10% of events)"
  , "Cross-region log replication for DR" ]

/-- Embeds `calculate_cloudtrail_costs`. -/
def calculate_cloudtrail_costs (p : OrganizationProfile) : ServiceCost :=
  let monthly_cost := AWSPricing.CLOUDTRAIL_TYPICAL_MONTHLY +
    cloudtrail_data_events_cost p + cloudtrail_insights_cost p
  { service_name := "AWS CloudTrail"
    monthly_cost := monthly_cost
    annual_cost := monthly_cost * 12
    cost_drivers := cloudtrail_cost_drivers
    optimization_potential := 0.15
    cost_tier := "standard" }

/-- CloudWatch `base_cost = CLOUDWATCH_TYPICAL_PER_ACCOUNT * accounts_count`. -/
def cloudwatch_base_cost (p : OrganizationProfile) : ℚ :=
  AWSPricing.CLOUDWATCH_TYPICAL_PER_ACCOUNT * (p.accounts_count : ℚ)

/-- CloudWatch `log_ingestion_gb = expected_data_gb_monthly * 0.3`. -/
def cloudwatch_log_ingestion_gb (p : OrganizationProfile) : ℚ :=
  (p.expected_data_gb_monthly : ℚ) * 0.3

/-- CloudWatch `ingestion_cost = log_ingestion_gb * ingestion_price`. -/
def cloudwatch_ingestion_cost (p : OrganizationProfile) : ℚ :=
  cloudwatch_log_ingestion_gb p * AWSPricing.CLOUDWATCH_LOG_INGESTION_PER_GB

/-- CloudWatch `storage_cost = log_ingestion_gb * 6 * storage_price` (6-month
average retention). -/
def cloudwatch_storage_cost (p : OrganizationProfile) : ℚ :=
  cloudwatch_log_ingestion_gb p * 6 * AWSPricing.CLOUDWATCH_LOG_STORAGE_PER_GB_MONTH

/-- Embeds `calculate_cloudwatch_costs`. -/
def calculate_cloudwatch_costs (p : OrganizationProfile) : ServiceCost :=
  let monthly_cost := cloudwatch_base_cost p + cloudwatch_ingestion_cost p +
    cloudwatch_storage_cost p
  { service_name := "Amazon CloudWatch"
    monthly_cost := monthly_cost
    annual_cost := monthly_cost * 12
    cost_drivers :=
      [ "Log ingestion across accounts"
      , "Log storage with average 6 month retention"
      , "Custom metrics and dashboards"
      , "Cross-account metric sharing" ]
    optimization_potential := 0.40
    cost_tier := "standard" }

/-- Security Hub `findings_per_month = accounts_count * 10000`. -/
def security_hub_findings_per_month (p : OrganizationProfile) : ℤ :=
  p.accounts_count * 10000

/-- Security Hub `ingestion_cost = (findings / 100000) * price`. -/
def security_hub_ingestion_cost (p : OrganizationProfile) : ℚ :=
  ((security_hub_findings_per_month p : ℚ) / 100000) *
    AWSPricing.SECURITY_HUB_FINDING_INGESTION_PER_100K

/-- Security Hub `compliance_checks_per_month =
accounts_count * len(compliance_requirements) * 1000`. -/
def security_hub_compliance_checks_per_month (p : OrganizationProfile) : ℤ :=
  p.accounts_count * (p.compliance_requirements.length : ℤ) * 1000

/-- Security Hub `compliance_cost = (checks / 100000) * price`. -/
def security_hub_compliance_cost (p : OrganizationProfile) : ℚ :=
  ((security_hub_compliance_checks_per_month p : ℚ) / 100000) *
    AWSPricing.SECURITY_HUB_COMPLIANCE_CHECKS_PER_100K

def security_hub_cost_drivers : List String :=
  [ "Security findings ingestion"
  , "Compliance checks"
  , "Standards from the requested frameworks"
  , "Cross-account security posture aggregation" ]

/-- Embeds `calculate_security_hub_costs`. -/
def calculate_security_hub_costs (p : OrganizationProfile) : ServiceCost :=
  let monthly_cost := security_hub_ingestion_cost p + security_hub_compliance_cost p
  { service_name := "AWS Security Hub"
    monthly_cost := monthly_cost
    annual_cost := monthly_cost * 12
    cost_drivers := security_hub_cost_drivers
    optimization_potential := 0.10
    cost_tier := "premium" }

/-- Backup `prod_accounts = int(accounts_count * (1 - development_accounts_ratio))`
— note the truncating `int()` conversion in the source. -/
def backup_prod_accounts (p : OrganizationProfile) : ℤ :=
  pythonInt ((p.accounts_count : ℚ) * (1 - p.development_accounts_ratio))

/-- Backup `dev_accounts = accounts_count - prod_accounts`. -/
def backup_dev_accounts (p : OrganizationProfile) : ℤ :=
  p.accounts_count - backup_prod_accounts p

/-- Backup `backup_storage_gb = prod_accounts * 100 + dev_accounts * 30`. -/
def backup_storage_gb (p : OrganizationProfile) : ℚ :=
  ((backup_prod_accounts p * 100 + backup_dev_accounts p * 30 : ℤ) : ℚ)

/-- Backup `storage_cost = backup_storage_gb * storage_price`. -/
def backup_storage_cost (p : OrganizationProfile) : ℚ :=
  backup_storage_gb p * AWSPricing.AWS_BACKUP_STORAGE_PER_GB_MONTH

/-- Backup `cross_region_gb = backup_storage_gb * 0.5`. -/
def backup_cross_region_gb (p : OrganizationProfile) : ℚ :=
  backup_storage_gb p * 0.5

/-- Backup `cross_region_cost = cross_region_gb * cross_region_price`. -/
def backup_cross_region_cost (p : OrganizationProfile) : ℚ :=
  backup_cross_region_gb p * AWSPricing.AWS_BACKUP_CROSS_REGION_COPY_PER_GB

/-- Embeds `calculate_backup_costs`. -/
def calculate_backup_costs (p : OrganizationProfile) : ServiceCost :=
  let monthly_cost := backup_storage_cost p + backup_cross_region_cost p
  { service_name := "AWS Backup"
    monthly_cost := monthly_cost
    annual_cost := monthly_cost * 12
    cost_drivers :=
      [ "Backup storage across accounts"
      , "Cross-region replication for DR"
      , "EBS snapshots, RDS backups, EFS backups"
      , "Automated backup lifecycle management" ]
    optimization_potential := 0.25
    cost_tier := "standard" }

/-- The service list of `generate_cost_report`, in source order. -/
def services (p : OrganizationProfile) : List ServiceCost :=
  [ calculate_control_tower_costs p
  , calculate_guardduty_costs p
  , calculate_config_costs p
  , calculate_transit_gateway_costs p
  , calculate_cloudtrail_costs p
  , calculate_cloudwatch_costs p
  , calculate_security_hub_costs p
  , calculate_backup_costs p ]

/-- Aggregate `total_monthly = sum(service.monthly_cost for service in services)`. -/
def total_monthly (p : OrganizationProfile) : ℚ :=
  ((services p).map (fun s => s.monthly_cost)).sum

/-- Aggregate `total_annual = sum(service.annual_cost for service in services)`. -/
def total_annual (p : OrganizationProfile) : ℚ :=
  ((services p).map (fun s => s.annual_cost)).sum

/-- Aggregate `optimized_monthly = sum(monthly_cost * (1 - optimization_potential))`. -/
def optimized_monthly (p : OrganizationProfile) : ℚ :=
  ((services p).map (fun s => s.monthly_cost * (1 - s.optimization_potential))).sum

/-- Aggregate `optimized_annual = optimized_monthly * 12`. -/
def optimized_annual (p : OrganizationProfile) : ℚ :=
  optimized_monthly p * 12

/-- Aggregate `potential_savings_monthly = total_monthly - optimized_monthly`. -/
def potential_savings_monthly (p : OrganizationProfile) : ℚ :=
  total_monthly p - optimized_monthly p

/-- Aggregate `potential_savings_annual = total_annual - optimized_annual`. -/
def potential_savings_annual (p : OrganizationProfile) : ℚ :=
  total_annual p - optimized_annual p

set_option genSizeOfSpec false in
/-- The `Recommendation` record emitted by `_generate_recommendations`. -/
structure Recommendation where
  priority : String
  category : String
  title : String
  description : String
  estimated_savings_annual : ℚ
  implementation_effort : String

/-- Rule 1: always-emitted Transit Gateway reserved-instances recommendation. -/
def tgw_reserved_recommendation (ta : ℚ) : Recommendation :=
  { priority := "high"
    category := "cost_optimization"
    title := "Implement Transit Gateway Reserved Instances"
    description := "Purchase 1-year reserved instances for Transit Gateway attachments"
    estimated_savings_annual := ta * 0.15
    implementation_effort := "low" }

/-- Rule 2: always-emitted CloudWatch log-retention recommendation. -/
def cloudwatch_retention_recommendation (ta : ℚ) : Recommendation :=
  { priority := "high"
    category := "log_optimization"
    title := "Configure CloudWatch Logs retention policies"
    description := "Implement tiered retention: 30 days (debug), 90 days (info), 365 days (error)"
    estimated_savings_annual := ta * 0.12
    implementation_effort := "medium" }

/-- Rule 3: budget-controls recommendation, emitted when `accounts_count > 20`. -/
def budget_controls_recommendation (ta : ℚ) : Recommendation :=
  { priority := "medium"
    category := "governance"
    title := "Implement account-level budget controls"
    description := "Set up automated budget alerts and spending limits per account"
    estimated_savings_annual := ta * 0.08
    implementation_effort := "high" }

/-- Rule 4: PCI-scope recommendation, emitted when `"pci-dss"` is required. -/
def pci_scope_recommendation (ta : ℚ) : Recommendation :=
  { priority := "medium"
    category := "compliance"
    title := "Optimize PCI DSS scope"
    description := "Reduce PCI DSS scope by network segmentation and data flow optimization"
    estimated_savings_annual := ta * 0.05
    implementation_effort := "high" }

/-- Embeds `_generate_recommendations`: two unconditional rules, then the account
rule, then the compliance rule, in source order.  (The `services` parameter
of the Python method is unused by its body.) -/
def generate_recommendations (p : OrganizationProfile) (total_annual : ℚ) :
    List Recommendation :=
  [tgw_reserved_recommendation total_annual, cloudwatch_retention_recommendation total_annual]
  ++ (if 20 < p.accounts_count then [budget_controls_recommendation total_annual] else [])
  ++ (if "pci-dss" ∈ p.compliance_requirements then [pci_scope_recommendation total_annual] else [])

set_option genSizeOfSpec false in
/-- One entry of `risk_factors` in `_generate_risk_analysis`. -/
structure RiskFactor where
  risk : String
  description : String
  mitigation : String

set_option genSizeOfSpec false in
/-- The `RiskAssessment` record: the dict returned by `_generate_risk_analysis`. -/
structure RiskAssessment where
  risk_level : String
  risk_factors : List RiskFactor

def high_monthly_spend_factor : RiskFactor :=
  { risk := "high_monthly_spend"
    description := "Monthly spend exceeds $2,000 - implement strict monitoring"
    mitigation := "Set up daily cost alerts and weekly reviews" }

def multi_region_complexity_factor : RiskFactor :=
  { risk := "multi_region_complexity"
    description := "Multi-region deployment increases data transfer costs"
    mitigation := "Optimize cross-region traffic patterns and implement data locality" }

def account_sprawl_factor : RiskFactor :=
  { risk := "account_sprawl"
    description := "Large number of accounts may lead to governance challenges"
    mitigation := "Implement automated account lifecycle management" }

/-- Embeds `_generate_risk_analysis`: three independent appends, then the level
classification `"high" if len >= 2 else "medium" if risk_factors else "low"`. -/
def generate_risk_analysis (p : OrganizationProfile) (monthly_cost : ℚ) :
    RiskAssessment :=
  let risk_factors :=
    (if 2000 < monthly_cost then [high_monthly_spend_factor] else [])
    ++ (if 2 < p.regions.length then [multi_region_complexity_factor] else [])
    ++ (if 50 < p.accounts_count then [account_sprawl_factor] else [])
  { risk_level :=
      if 2 ≤ risk_factors.length then "high"
      else if risk_factors.length ≠ 0 then "medium" else "low"
    risk_factors := risk_factors }

/-! ### Checked variants: every Python division routed through `pyDiv`, so a
`ZeroDivisionError` surfaces as `none`.  Only three calculator bodies divide
(GuardDuty, CloudTrail, Security Hub — always by the literal `100000`);
the other five are division-free. -/

/-- Embeds `calculate_guardduty_costs` with its division checked. -/
def calculate_guardduty_costs_checked (p : OrganizationProfile) : Option ServiceCost := do
  let q ← pyDiv (guardduty_events_per_month p) 100000
  let monthly_cost := guardduty_base_monthly p +
    q * AWSPricing.GUARDDUTY_CLOUDTRAIL_PER_100K_EVENTS + guardduty_dns_logs_cost p
  pure
    { service_name := "Amazon GuardDuty"
      monthly_cost := monthly_cost
      annual_cost := monthly_cost * 12
      cost_drivers := guardduty_cost_drivers
      optimization_potential := 0.20
      cost_tier := "premium" }

/-- Embeds `calculate_cloudtrail_costs` with its two divisions checked. -/
def calculate_cloudtrail_costs_checked (p : OrganizationProfile) : Option ServiceCost := do
  let q1 ← pyDiv (cloudtrail_data_events_per_month p) 100000
  let q2 ← pyDiv (cloudtrail_data_events_per_month p) 100000
  let monthly_cost := AWSPricing.CLOUDTRAIL_TYPICAL_MONTHLY +
    q1 * AWSPricing.CLOUDTRAIL_DATA_EVENTS_PER_100K +
    q2 * AWSPricing.CLOUDTRAIL_INSIGHTS_PER_100K * 0.1
  pure
    { service_name := "AWS CloudTrail"
      monthly_cost := monthly_cost
      annual_cost := monthly_cost * 12
      cost_drivers := cloudtrail_cost_drivers
      optimization_potential := 0.15
      cost_tier := "standard" }

/-- Embeds `calculate_security_hub_costs` with its two divisions checked. -/
def calculate_security_hub_costs_checked (p : OrganizationProfile) : Option ServiceCost := do
  let q1 ← pyDiv (security_hub_findings_per_month p : ℚ) 100000
  let q2 ← pyDiv (security_hub_compliance_checks_per_month p : ℚ) 100000
  let monthly_cost := q1 * AWSPricing.SECURITY_HUB_FINDING_INGESTION_PER_100K +
    q2 * AWSPricing.SECURITY_HUB_COMPLIANCE_CHECKS_PER_100K
  pure
    { service_name := "AWS Security Hub"
      monthly_cost := monthly_cost
      annual_cost := monthly_cost * 12
      cost_drivers := security_hub_cost_drivers
      optimization_potential := 0.10
      cost_tier := "premium" }

/-- The eight calculators run in source order with divisions checked. -/
def services_checked (p : OrganizationProfile) : Option (List ServiceCost) := do
  let gd ← calculate_guardduty_costs_checked p
  let ctrail ← calculate_cloudtrail_costs_checked p
  let sh ← calculate_security_hub_costs_checked p
  pure
    [ calculate_control_tower_costs p
    , gd
    , calculate_config_costs p
    , calculate_transit_gateway_costs p
    , ctrail
    , calculate_cloudwatch_costs p
    , sh
    , calculate_backup_costs p ]

/-- Every denominator of a division performed by `generate_cost_report`
itself (per-service `percentage_of_total`, the potential-savings
percentage, cost per employee, cost per account). -/
def report_denominators (p : OrganizationProfile) : List ℚ :=
  [total_monthly p, total_annual p, (p.employees : ℚ), (p.accounts_count : ℚ)]

/-- The profile with doubled `accounts_count` and all other fields fixed. -/
def doubled (p : OrganizationProfile) : OrganizationProfile :=
  { p with accounts_count := 2 * p.accounts_count }

/-! ### Concrete profiles used as test inputs. -/

/-- The end-to-end example profile of the spec (§8) and of the source's CLI
defaults. -/
def exampleProfile : OrganizationProfile :=
  { name := "Enterprise Organization"
    accounts_count := 10
    employees := 500
    regions := ["us-east-1"]
    compliance_requirements := ["sox", "pci-dss"]
    expected_data_gb_monthly := 1000
    business_hours_only := false
    development_accounts_ratio := 0.3 }

/-- A valid profile whose `accounts_count * (1 - ratio)` lands exactly on a
half-integer (`10 * 0.75 = 7.5`), separating truncation from rounding. -/
def quarterRatioProfile : OrganizationProfile :=
  { name := "Quarter Ratio Organization"
    accounts_count := 10
    employees := 500
    regions := ["us-east-1"]
    compliance_requirements := ["sox"]
    expected_data_gb_monthly := 1000
    business_hours_only := false
    development_accounts_ratio := 0.25 }

/-- Boundary profile with exactly 20 accounts. -/
def twentyProfile : OrganizationProfile :=
  { exampleProfile with name := "Twenty Accounts", accounts_count := 20 }

/-- Profile with 21 accounts, just past the budget-rule boundary. -/
def twentyOneProfile : OrganizationProfile :=
  { exampleProfile with name := "TwentyOne Accounts", accounts_count := 21 }

/-- Profile with 60 accounts and three regions, triggering all three risk
factors. -/
def sprawlProfile : OrganizationProfile :=
  { name := "Sprawl Organization"
    accounts_count := 60
    employees := 500
    regions := ["us-east-1", "eu-west-1", "ap-southeast-1"]
    compliance_requirements := ["sox", "pci-dss"]
    expected_data_gb_monthly := 1000
    business_hours_only := false
    development_accounts_ratio := 0.3 }

/-- Follows the spec's §4.1 wording for the backup service, with
`prod_accounts = round(accounts_count * (1 - development_accounts_ratio))`,
for comparison against the implementation's truncation. -/
def backup_monthly_cost_spec_round (p : OrganizationProfile) : ℚ :=
  let prod_accounts : ℤ := round ((p.accounts_count : ℚ) * (1 - p.development_accounts_ratio))
  let dev_accounts : ℤ := p.accounts_count - prod_accounts
  let storage_gb : ℚ := ((prod_accounts * 100 + dev_accounts * 30 : ℤ) : ℚ)
  let cross_region_gb : ℚ := storage_gb * 0.5
  storage_gb * AWSPricing.AWS_BACKUP_STORAGE_PER_GB_MONTH +
    cross_region_gb * AWSPricing.AWS_BACKUP_CROSS_REGION_COPY_PER_GB

/-! ### Helper lemmas -/

theorem total_monthly_eq (p : OrganizationProfile) :
    total_monthly p =
      (calculate_control_tower_costs p).monthly_cost +
      (calculate_guardduty_costs p).monthly_cost +
      (calculate_config_costs p).monthly_cost +
      (calculate_transit_gateway_costs p).monthly_cost +
      (calculate_cloudtrail_costs p).monthly_cost +
      (calculate_cloudwatch_costs p).monthly_cost +
      (calculate_security_hub_costs p).monthly_cost +
      (calculate_backup_costs p).monthly_cost := by
  simp [total_monthly, services]
  ring

theorem optimized_monthly_eq (p : OrganizationProfile) :
    optimized_monthly p =
      (calculate_control_tower_costs p).monthly_cost *
        (1 - (calculate_control_tower_costs p).optimization_potential) +
      (calculate_guardduty_costs p).monthly_cost *
        (1 - (calculate_guardduty_costs p).optimization_potential) +
      (calculate_config_costs p).monthly_cost *
        (1 - (calculate_config_costs p).optimization_potential) +
      (calculate_transit_gateway_costs p).monthly_cost *
        (1 - (calculate_transit_gateway_costs p).optimization_potential) +
      (calculate_cloudtrail_costs p).monthly_cost *
        (1 - (calculate_cloudtrail_costs p).optimization_potential) +
      (calculate_cloudwatch_costs p).monthly_cost *
        (1 - (calculate_cloudwatch_costs p).optimization_potential) +
      (calculate_security_hub_costs p).monthly_cost *
        (1 - (calculate_security_hub_costs p).optimization_potential) +
      (calculate_backup_costs p).monthly_cost *
        (1 - (calculate_backup_costs p).optimization_potential) := by
  have hs : services p =
      [ calculate_control_tower_costs p
      , calculate_guardduty_costs p
      , calculate_config_costs p
      , calculate_transit_gateway_costs p
      , calculate_cloudtrail_costs p
      , calculate_cloudwatch_costs p
      , calculate_security_hub_costs p
      , calculate_backup_costs p ] := rfl
  unfold optimized_monthly
  rw [hs, List.map_cons, List.map_cons, List.map_cons, List.map_cons,
    List.map_cons, List.map_cons, List.map_cons, List.map_cons, List.map_nil,
    List.sum_cons, List.sum_cons, List.sum_cons, List.sum_cons, List.sum_cons,
    List.sum_cons, List.sum_cons, List.sum_cons, List.sum_nil]
  ring

theorem accounts_cast_ge_one (p : OrganizationProfile) (h : Valid p) :
    (1 : ℚ) ≤ (p.accounts_count : ℚ) := by
  exact_mod_cast h.1

theorem data_cast_nonneg (p : OrganizationProfile) (h : Valid p) :
    (0 : ℚ) ≤ (p.expected_data_gb_monthly : ℚ) := by
  exact_mod_cast h.2.2.2.2.2

theorem regions_cast_ge_one (p : OrganizationProfile) (h : Valid p) :
    (1 : ℚ) ≤ (p.regions.length : ℚ) := by
  have : 0 < p.regions.length := List.length_pos.mpr h.2.2.1
  exact_mod_cast this

theorem guardduty_monthly_nonneg (p : OrganizationProfile) (h : Valid p) :
    0 ≤ (calculate_guardduty_costs p).monthly_cost := by
  have ha := accounts_cast_ge_one p h
  have hd := data_cast_nonneg p h
  simp only [calculate_guardduty_costs, guardduty_base_monthly,
    guardduty_cloudtrail_events_cost, guardduty_events_per_month,
    guardduty_dns_logs_cost, AWSPricing.GUARDDUTY_BASE_PER_ACCOUNT,
    AWSPricing.GUARDDUTY_CLOUDTRAIL_PER_100K_EVENTS, AWSPricing.GUARDDUTY_DNS_PER_GB]
  norm_num
  linarith

theorem guardduty_monthly_ge_base (p : OrganizationProfile) (h : Valid p) :
    AWSPricing.GUARDDUTY_BASE_PER_ACCOUNT ≤ (calculate_guardduty_costs p).monthly_cost := by
  have ha := accounts_cast_ge_one p h
  have hd := data_cast_nonneg p h
  simp only [calculate_guardduty_costs, guardduty_base_monthly,
    guardduty_cloudtrail_events_cost, guardduty_events_per_month,
    guardduty_dns_logs_cost, AWSPricing.GUARDDUTY_BASE_PER_ACCOUNT,
    AWSPricing.GUARDDUTY_CLOUDTRAIL_PER_100K_EVENTS, AWSPricing.GUARDDUTY_DNS_PER_GB]
  norm_num
  linarith

theorem config_monthly_nonneg (p : OrganizationProfile) (h : Valid p) :
    0 ≤ (calculate_config_costs p).monthly_cost := by
  have ha := accounts_cast_ge_one p h
  simp only [calculate_config_costs, config_total_items,
    config_rule_evaluations_per_month, AWSPricing.CONFIG_ITEM_PRICE,
    AWSPricing.CONFIG_RULE_EVALUATION_PRICE]
  push_cast
  norm_num
  linarith

theorem tgw_monthly_nonneg (p : OrganizationProfile) (h : Valid p) :
    0 ≤ (calculate_transit_gateway_costs p).monthly_cost := by
  have ha := accounts_cast_ge_one p h
  have hd := data_cast_nonneg p h
  have hr := regions_cast_ge_one p h
  have har : (1 : ℚ) ≤ (p.accounts_count : ℚ) * (p.regions.length : ℚ) := by
    have := mul_le_mul ha hr zero_le_one (by linarith)
    linarith
  simp only [calculate_transit_gateway_costs, tgw_attachment_cost,
    tgw_total_attachments, tgw_data_gb, tgw_data_processing_cost,
    AWSPricing.TGW_ATTACHMENT_HOURLY, AWSPricing.TGW_DATA_PROCESSING_PER_GB]
  push_cast
  norm_num
  nlinarith

theorem cloudtrail_monthly_nonneg (p : OrganizationProfile) (h : Valid p) :
    0 ≤ (calculate_cloudtrail_costs p).monthly_cost := by
  have hd := data_cast_nonneg p h
  simp only [calculate_cloudtrail_costs, cloudtrail_data_events_cost,
    cloudtrail_data_events_per_month, cloudtrail_insights_cost,
    AWSPricing.CLOUDTRAIL_TYPICAL_MONTHLY, AWSPricing.CLOUDTRAIL_DATA_EVENTS_PER_100K,
    AWSPricing.CLOUDTRAIL_INSIGHTS_PER_100K]
  norm_num
  linarith

theorem cloudwatch_monthly_nonneg (p : OrganizationProfile) (h : Valid p) :
    0 ≤ (calculate_cloudwatch_costs p).monthly_cost := by
  have ha := accounts_cast_ge_one p h
  have hd := data_cast_nonneg p h
  simp only [calculate_cloudwatch_costs, cloudwatch_base_cost,
    cloudwatch_log_ingestion_gb, cloudwatch_ingestion_cost, cloudwatch_storage_cost,
    AWSPricing.CLOUDWATCH_TYPICAL_PER_ACCOUNT, AWSPricing.CLOUDWATCH_LOG_INGESTION_PER_GB,
    AWSPricing.CLOUDWATCH_LOG_STORAGE_PER_GB_MONTH]
  norm_num
  linarith

theorem security_hub_monthly_nonneg (p : OrganizationProfile) (h : Valid p) :
    0 ≤ (calculate_security_hub_costs p).monthly_cost := by
  have ha := accounts_cast_ge_one p h
  have hf : (0 : ℚ) ≤ (p.compliance_requirements.length : ℚ) := by positivity
  have haf : (0 : ℚ) ≤ (p.accounts_count : ℚ) * (p.compliance_requirements.length : ℚ) := by
    nlinarith
  simp only [calculate_security_hub_costs, security_hub_ingestion_cost,
    security_hub_findings_per_month, security_hub_compliance_cost,
    security_hub_compliance_checks_per_month,
    AWSPricing.SECURITY_HUB_FINDING_INGESTION_PER_100K,
    AWSPricing.SECURITY_HUB_COMPLIANCE_CHECKS_PER_100K]
  push_cast
  norm_num
  nlinarith

theorem backup_prod_eq_floor (p : OrganizationProfile) (h : Valid p) :
    backup_prod_accounts p =
      ⌊(p.accounts_count : ℚ) * (1 - p.development_accounts_ratio)⌋ := by
  have ha := accounts_cast_ge_one p h
  have hr := h.2.2.2.2.1
  unfold backup_prod_accounts pythonInt
  rw [if_pos]
  nlinarith

theorem backup_prod_nonneg (p : OrganizationProfile) (h : Valid p) :
    0 ≤ backup_prod_accounts p := by
  have ha := accounts_cast_ge_one p h
  have hr := h.2.2.2.2.1
  rw [backup_prod_eq_floor p h]
  apply Int.floor_nonneg.mpr
  nlinarith

theorem backup_prod_le_accounts (p : OrganizationProfile) (h : Valid p) :
    backup_prod_accounts p ≤ p.accounts_count := by
  have ha := accounts_cast_ge_one p h
  have hr0 := h.2.2.2.1
  rw [backup_prod_eq_floor p h]
  have hle : (p.accounts_count : ℚ) * (1 - p.development_accounts_ratio) ≤
      (p.accounts_count : ℚ) := by nlinarith
  calc ⌊(p.accounts_count : ℚ) * (1 - p.development_accounts_ratio)⌋
      ≤ ⌊(p.accounts_count : ℚ)⌋ := Int.floor_le_floor hle
    _ = p.accounts_count := Int.floor_intCast _

theorem backup_storage_nonneg (p : OrganizationProfile) (h : Valid p) :
    0 ≤ backup_storage_gb p := by
  have h1 := backup_prod_nonneg p h
  have h2 := backup_prod_le_accounts p h
  unfold backup_storage_gb backup_dev_accounts
  push_cast
  have h1q : (0 : ℚ) ≤ (backup_prod_accounts p : ℚ) := by exact_mod_cast h1
  have h2q : (backup_prod_accounts p : ℚ) ≤ (p.accounts_count : ℚ) := by exact_mod_cast h2
  linarith

theorem backup_monthly_nonneg (p : OrganizationProfile) (h : Valid p) :
    0 ≤ (calculate_backup_costs p).monthly_cost := by
  have hs := backup_storage_nonneg p h
  simp only [calculate_backup_costs, backup_storage_cost, backup_cross_region_cost,
    backup_cross_region_gb, AWSPricing.AWS_BACKUP_STORAGE_PER_GB_MONTH,
    AWSPricing.AWS_BACKUP_CROSS_REGION_COPY_PER_GB]
  linarith

theorem total_monthly_ge_base (p : OrganizationProfile) (h : Valid p) :
    AWSPricing.CONTROL_TOWER_BASE ≤ total_monthly p := by
  rw [total_monthly_eq]
  have h1 := guardduty_monthly_nonneg p h
  have h2 := config_monthly_nonneg p h
  have h3 := tgw_monthly_nonneg p h
  have h4 := cloudtrail_monthly_nonneg p h
  have h5 := cloudwatch_monthly_nonneg p h
  have h6 := security_hub_monthly_nonneg p h
  have h7 := backup_monthly_nonneg p h
  have hct : (calculate_control_tower_costs p).monthly_cost =
      AWSPricing.CONTROL_TOWER_BASE := rfl
  linarith

theorem valid_of (p : OrganizationProfile) (h1 : 1 ≤ p.accounts_count)
    (h2 : 1 ≤ p.employees) (h3 : p.regions ≠ [])
    (h4 : 0 ≤ p.development_accounts_ratio) (h5 : p.development_accounts_ratio ≤ 1)
    (h6 : 0 ≤ p.expected_data_gb_monthly) : Valid p :=
  ⟨h1, h2, h3, h4, h5, h6⟩

theorem total_annual_eq_twelve_total_monthly (p : OrganizationProfile) :
    total_annual p = total_monthly p * 12 := by
  simp only [total_annual, total_monthly, services, List.map_cons, List.map_nil,
    List.sum_cons, List.sum_nil, calculate_control_tower_costs,
    calculate_guardduty_costs, calculate_config_costs,
    calculate_transit_gateway_costs, calculate_cloudtrail_costs,
    calculate_cloudwatch_costs, calculate_security_hub_costs, calculate_backup_costs]
  ring

/-! ### Claim theorems -/

/-- C1: on the spec's end-to-end example profile (10 accounts, 500
employees, one region, sox + pci-dss, 1000 GB/month, ratio 0.3), the
Control Tower calculator returns exactly 89.10 monthly and 1069.20
annually, and the report's breakdown has exactly 8 service entries. -/
theorem spec_example_control_tower_and_service_count :
    (calculate_control_tower_costs exampleProfile).monthly_cost = 89.10 ∧
    (calculate_control_tower_costs exampleProfile).annual_cost = 1069.20 ∧
    (services exampleProfile).length = 8 := by
  refine ⟨by norm_num [calculate_control_tower_costs, AWSPricing.CONTROL_TOWER_BASE],
    by norm_num [calculate_control_tower_costs, AWSPricing.CONTROL_TOWER_BASE], rfl⟩

/-- C2: for every valid profile, the aggregated `total_annual` equals
`total_monthly * 12` — exactly in the rational model, hence in particular
within the claimed 1e-6 relative tolerance. -/
theorem total_annual_is_twelve_times_monthly (p : OrganizationProfile) (_h : Valid p) :
    total_annual p = total_monthly p * 12 ∧
    |total_annual p - total_monthly p * 12| ≤ 1 / 1000000 * |total_monthly p * 12| := by
  have heq := total_annual_eq_twelve_total_monthly p
  refine ⟨heq, ?_⟩
  rw [heq, sub_self, abs_zero]
  positivity

/-- Witness for C2 at the example profile. -/
theorem total_annual_is_twelve_times_monthly_witness :
    Valid exampleProfile ∧
    total_annual exampleProfile = total_monthly exampleProfile * 12 :=
  ⟨by norm_num [Valid, exampleProfile],
    (total_annual_is_twelve_times_monthly exampleProfile
      (by norm_num [Valid, exampleProfile])).1⟩

/-- C3: for every valid profile, the per-service-optimized monthly total is
at most the raw monthly total, with equality exactly when every service has
zero optimization potential.  (On this code base seven of the eight
services carry a fixed positive potential and GuardDuty's cost is bounded
below by its positive base price, so both sides of the biconditional are in
fact false for every valid profile.) -/
theorem optimized_le_total_with_equality_iff (p : OrganizationProfile) (h : Valid p) :
    optimized_monthly p ≤ total_monthly p ∧
    (optimized_monthly p = total_monthly p ↔
      ∀ s ∈ services p, s.optimization_potential = 0) := by
  have e1 : (calculate_control_tower_costs p).optimization_potential = 0 := rfl
  have e2 : (calculate_guardduty_costs p).optimization_potential = 0.20 := rfl
  have e3 : (calculate_config_costs p).optimization_potential = 0.25 := rfl
  have e4 : (calculate_transit_gateway_costs p).optimization_potential = 0.30 := rfl
  have e5 : (calculate_cloudtrail_costs p).optimization_potential = 0.15 := rfl
  have e6 : (calculate_cloudwatch_costs p).optimization_potential = 0.40 := rfl
  have e7 : (calculate_security_hub_costs p).optimization_potential = 0.10 := rfl
  have e8 : (calculate_backup_costs p).optimization_potential = 0.25 := rfl
  have hgap : total_monthly p - optimized_monthly p =
      0.20 * (calculate_guardduty_costs p).monthly_cost +
      0.25 * (calculate_config_costs p).monthly_cost +
      0.30 * (calculate_transit_gateway_costs p).monthly_cost +
      0.15 * (calculate_cloudtrail_costs p).monthly_cost +
      0.40 * (calculate_cloudwatch_costs p).monthly_cost +
      0.10 * (calculate_security_hub_costs p).monthly_cost +
      0.25 * (calculate_backup_costs p).monthly_cost := by
    rw [total_monthly_eq, optimized_monthly_eq, e1, e2, e3, e4, e5, e6, e7, e8]
    ring
  have h1 := guardduty_monthly_ge_base p h
  have h2 := config_monthly_nonneg p h
  have h3 := tgw_monthly_nonneg p h
  have h4 := cloudtrail_monthly_nonneg p h
  have h5 := cloudwatch_monthly_nonneg p h
  have h6 := security_hub_monthly_nonneg p h
  have h7 := backup_monthly_nonneg p h
  have hbase : AWSPricing.GUARDDUTY_BASE_PER_ACCOUNT = 15.60 := rfl
  rw [hbase] at h1
  have hlt : optimized_monthly p < total_monthly p := by nlinarith
  refine ⟨hlt.le, iff_of_false (ne_of_lt hlt) ?_⟩
  intro hall
  have hmem : calculate_guardduty_costs p ∈ services p := by simp [services]
  have hz := hall _ hmem
  rw [e2] at hz
  norm_num at hz

/-- Witness for C3 at the example profile. -/
theorem optimized_le_total_with_equality_iff_witness :
    Valid exampleProfile ∧
    optimized_monthly exampleProfile ≤ total_monthly exampleProfile :=
  ⟨by norm_num [Valid, exampleProfile],
    (optimized_le_total_with_equality_iff exampleProfile
      (by norm_num [Valid, exampleProfile])).1⟩

/-- C4 counterexample: on `quarterRatioProfile` (10 accounts, development
ratio 0.25, so `accounts * (1 - ratio) = 7.5`) the implementation's
truncating `int()` yields 7 production accounts and a monthly cost of
47.40, while the claim's `round(...)` formula yields 8 production accounts
and 51.60; the two disagree, refuting the claim as stated. -/
theorem backup_round_claim_counterexample :
    backup_prod_accounts quarterRatioProfile = 7 ∧
    round ((quarterRatioProfile.accounts_count : ℚ) *
      (1 - quarterRatioProfile.development_accounts_ratio)) = 8 ∧
    (calculate_backup_costs quarterRatioProfile).monthly_cost = 47.40 ∧
    backup_monthly_cost_spec_round quarterRatioProfile = 51.60 ∧
    (calculate_backup_costs quarterRatioProfile).monthly_cost ≠
      backup_monthly_cost_spec_round quarterRatioProfile := by
  have hv : Valid quarterRatioProfile := by norm_num [Valid, quarterRatioProfile]
  have h1 : backup_prod_accounts quarterRatioProfile = 7 := by
    rw [backup_prod_eq_floor _ hv]
    norm_num [quarterRatioProfile]
  have hst : backup_storage_gb quarterRatioProfile = 790 := by
    unfold backup_storage_gb backup_dev_accounts
    rw [h1]
    norm_num [quarterRatioProfile]
  have h3 : (calculate_backup_costs quarterRatioProfile).monthly_cost = 47.40 := by
    have : (calculate_backup_costs quarterRatioProfile).monthly_cost =
        backup_storage_cost quarterRatioProfile +
        backup_cross_region_cost quarterRatioProfile := rfl
    rw [this]
    unfold backup_storage_cost backup_cross_region_cost backup_cross_region_gb
    rw [hst]
    norm_num [AWSPricing.AWS_BACKUP_STORAGE_PER_GB_MONTH,
      AWSPricing.AWS_BACKUP_CROSS_REGION_COPY_PER_GB]
  have h2 : round ((quarterRatioProfile.accounts_count : ℚ) *
      (1 - quarterRatioProfile.development_accounts_ratio)) = 8 := by
    norm_num [quarterRatioProfile, round_eq]
  have h4 : backup_monthly_cost_spec_round quarterRatioProfile = 51.60 := by
    unfold backup_monthly_cost_spec_round
    rw [h2]
    norm_num [quarterRatioProfile, AWSPricing.AWS_BACKUP_STORAGE_PER_GB_MONTH,
      AWSPricing.AWS_BACKUP_CROSS_REGION_COPY_PER_GB]
  refine ⟨h1, h2, h3, h4, ?_⟩
  rw [h3, h4]
  norm_num

/-- C4 (amended): the backup calculator computes `prod_accounts` by
Python's truncating `int()` conversion — on valid profiles the floor of
`accounts_count * (1 - development_accounts_ratio)`, not its rounding —
and otherwise follows the claimed formula with
`optimization_potential = 0.25`. -/
theorem backup_truncation_formula (p : OrganizationProfile) (h : Valid p) :
    backup_prod_accounts p =
      ⌊(p.accounts_count : ℚ) * (1 - p.development_accounts_ratio)⌋ ∧
    backup_dev_accounts p = p.accounts_count - backup_prod_accounts p ∧
    backup_storage_gb p =
      (backup_prod_accounts p : ℚ) * 100 + (backup_dev_accounts p : ℚ) * 30 ∧
    backup_cross_region_gb p = backup_storage_gb p * 0.5 ∧
    (calculate_backup_costs p).monthly_cost =
      backup_storage_gb p * AWSPricing.AWS_BACKUP_STORAGE_PER_GB_MONTH +
      backup_cross_region_gb p * AWSPricing.AWS_BACKUP_CROSS_REGION_COPY_PER_GB ∧
    (calculate_backup_costs p).optimization_potential = 0.25 := by
  refine ⟨backup_prod_eq_floor p h, rfl, ?_, rfl, rfl, rfl⟩
  unfold backup_storage_gb
  push_cast
  ring

/-- Witness for the amended C4 at the example profile. -/
theorem backup_truncation_formula_witness :
    Valid exampleProfile ∧
    backup_prod_accounts exampleProfile =
      ⌊(exampleProfile.accounts_count : ℚ) *
        (1 - exampleProfile.development_accounts_ratio)⌋ :=
  ⟨by norm_num [Valid, exampleProfile],
    (backup_truncation_formula exampleProfile
      (by norm_num [Valid, exampleProfile])).1⟩

theorem valid_doubled (p : OrganizationProfile) (h : Valid p) : Valid (doubled p) := by
  obtain ⟨h1, h2, h3, h4, h5, h6⟩ := h
  exact ⟨by show 1 ≤ 2 * p.accounts_count; omega, h2, h3, h4, h5, h6⟩

theorem guardduty_doubling_lt (p : OrganizationProfile) (h : Valid p) :
    (calculate_guardduty_costs p).monthly_cost <
      (calculate_guardduty_costs (doubled p)).monthly_cost := by
  have ha := accounts_cast_ge_one p h
  simp only [calculate_guardduty_costs, guardduty_base_monthly,
    guardduty_cloudtrail_events_cost, guardduty_events_per_month,
    guardduty_dns_logs_cost, doubled, AWSPricing.GUARDDUTY_BASE_PER_ACCOUNT,
    AWSPricing.GUARDDUTY_CLOUDTRAIL_PER_100K_EVENTS, AWSPricing.GUARDDUTY_DNS_PER_GB]
  push_cast
  linarith

theorem config_doubling_lt (p : OrganizationProfile) (h : Valid p) :
    (calculate_config_costs p).monthly_cost <
      (calculate_config_costs (doubled p)).monthly_cost := by
  have ha := accounts_cast_ge_one p h
  simp only [calculate_config_costs, config_total_items,
    config_rule_evaluations_per_month, doubled, AWSPricing.CONFIG_ITEM_PRICE,
    AWSPricing.CONFIG_RULE_EVALUATION_PRICE]
  push_cast
  linarith

theorem tgw_doubling_lt (p : OrganizationProfile) (h : Valid p) :
    (calculate_transit_gateway_costs p).monthly_cost <
      (calculate_transit_gateway_costs (doubled p)).monthly_cost := by
  have ha := accounts_cast_ge_one p h
  have hr := regions_cast_ge_one p h
  have har : (1 : ℚ) ≤ (p.accounts_count : ℚ) * (p.regions.length : ℚ) := by
    have := mul_le_mul ha hr zero_le_one (by linarith)
    linarith
  simp only [calculate_transit_gateway_costs, tgw_attachment_cost,
    tgw_total_attachments, tgw_data_gb, tgw_data_processing_cost, doubled,
    AWSPricing.TGW_ATTACHMENT_HOURLY, AWSPricing.TGW_DATA_PROCESSING_PER_GB]
  push_cast
  nlinarith

theorem cloudwatch_doubling_lt (p : OrganizationProfile) (h : Valid p) :
    (calculate_cloudwatch_costs p).monthly_cost <
      (calculate_cloudwatch_costs (doubled p)).monthly_cost := by
  have ha := accounts_cast_ge_one p h
  simp only [calculate_cloudwatch_costs, cloudwatch_base_cost,
    cloudwatch_log_ingestion_gb, cloudwatch_ingestion_cost, cloudwatch_storage_cost,
    doubled, AWSPricing.CLOUDWATCH_TYPICAL_PER_ACCOUNT,
    AWSPricing.CLOUDWATCH_LOG_INGESTION_PER_GB,
    AWSPricing.CLOUDWATCH_LOG_STORAGE_PER_GB_MONTH]
  push_cast
  linarith

theorem security_hub_doubling_lt (p : OrganizationProfile) (h : Valid p) :
    (calculate_security_hub_costs p).monthly_cost <
      (calculate_security_hub_costs (doubled p)).monthly_cost := by
  have ha := accounts_cast_ge_one p h
  have hf : (0 : ℚ) ≤ (p.compliance_requirements.length : ℚ) := by positivity
  have haf : (0 : ℚ) ≤ (p.accounts_count : ℚ) * (p.compliance_requirements.length : ℚ) := by
    nlinarith
  simp only [calculate_security_hub_costs, security_hub_ingestion_cost,
    security_hub_findings_per_month, security_hub_compliance_cost,
    security_hub_compliance_checks_per_month, doubled,
    AWSPricing.SECURITY_HUB_FINDING_INGESTION_PER_100K,
    AWSPricing.SECURITY_HUB_COMPLIANCE_CHECKS_PER_100K]
  push_cast
  nlinarith

theorem backup_doubling_lt (p : OrganizationProfile) (h : Valid p) :
    (calculate_backup_costs p).monthly_cost <
      (calculate_backup_costs (doubled p)).monthly_cost := by
  have ha := accounts_cast_ge_one p h
  have hr0 := h.2.2.2.1
  have hr1 := h.2.2.2.2.1
  have hvd := valid_doubled p h
  have hmono : backup_prod_accounts p ≤ backup_prod_accounts (doubled p) := by
    rw [backup_prod_eq_floor p h, backup_prod_eq_floor (doubled p) hvd]
    apply Int.floor_le_floor
    have hacc : ((doubled p).accounts_count : ℚ) = 2 * (p.accounts_count : ℚ) := by
      have : (doubled p).accounts_count = 2 * p.accounts_count := rfl
      rw [this]
      push_cast
      ring
    have hrat : (doubled p).development_accounts_ratio = p.development_accounts_ratio := rfl
    rw [hacc, hrat]
    nlinarith
  have hm : (backup_prod_accounts p : ℚ) ≤ (backup_prod_accounts (doubled p) : ℚ) := by
    exact_mod_cast hmono
  have hacc : ((doubled p).accounts_count : ℚ) = 2 * (p.accounts_count : ℚ) := by
    have : (doubled p).accounts_count = 2 * p.accounts_count := rfl
    rw [this]
    push_cast
    ring
  simp only [calculate_backup_costs, backup_storage_cost, backup_cross_region_cost,
    backup_cross_region_gb, backup_storage_gb, backup_dev_accounts,
    AWSPricing.AWS_BACKUP_STORAGE_PER_GB_MONTH,
    AWSPricing.AWS_BACKUP_CROSS_REGION_COPY_PER_GB]
  push_cast
  rw [hacc]
  linarith

/-- C5: doubling `accounts_count` with every other field fixed strictly
increases the monthly cost of the GuardDuty, Config, Transit Gateway,
CloudWatch, Security Hub and Backup calculators, and leaves the Control
Tower calculator's monthly cost unchanged. -/
theorem doubling_accounts_scaling (p : OrganizationProfile) (h : Valid p) :
    (calculate_guardduty_costs p).monthly_cost <
      (calculate_guardduty_costs (doubled p)).monthly_cost ∧
    (calculate_config_costs p).monthly_cost <
      (calculate_config_costs (doubled p)).monthly_cost ∧
    (calculate_transit_gateway_costs p).monthly_cost <
      (calculate_transit_gateway_costs (doubled p)).monthly_cost ∧
    (calculate_cloudwatch_costs p).monthly_cost <
      (calculate_cloudwatch_costs (doubled p)).monthly_cost ∧
    (calculate_security_hub_costs p).monthly_cost <
      (calculate_security_hub_costs (doubled p)).monthly_cost ∧
    (calculate_backup_costs p).monthly_cost <
      (calculate_backup_costs (doubled p)).monthly_cost ∧
    (calculate_control_tower_costs (doubled p)).monthly_cost =
      (calculate_control_tower_costs p).monthly_cost :=
  ⟨guardduty_doubling_lt p h, config_doubling_lt p h, tgw_doubling_lt p h,
    cloudwatch_doubling_lt p h, security_hub_doubling_lt p h,
    backup_doubling_lt p h, rfl⟩

/-- Witness for C5 at the example profile. -/
theorem doubling_accounts_scaling_witness :
    Valid exampleProfile ∧
    (calculate_guardduty_costs exampleProfile).monthly_cost <
      (calculate_guardduty_costs (doubled exampleProfile)).monthly_cost :=
  ⟨by norm_num [Valid, exampleProfile],
    (doubling_accounts_scaling exampleProfile
      (by norm_num [Valid, exampleProfile])).1⟩

/-- C6: the account-level budget-controls recommendation is emitted exactly
when `accounts_count > 20`; in particular the boundary profile with exactly
20 accounts does not receive it. -/
theorem budget_rule_iff_accounts_gt_twenty :
    (∀ p : OrganizationProfile, Valid p →
      (budget_controls_recommendation (total_annual p) ∈
          generate_recommendations p (total_annual p) ↔ 20 < p.accounts_count)) ∧
    budget_controls_recommendation (total_annual twentyProfile) ∉
      generate_recommendations twentyProfile (total_annual twentyProfile) := by
  have main : ∀ p : OrganizationProfile, Valid p →
      (budget_controls_recommendation (total_annual p) ∈
          generate_recommendations p (total_annual p) ↔ 20 < p.accounts_count) := by
    intro p _hv
    unfold generate_recommendations
    split_ifs with hb hp hp <;>
      simp_all [budget_controls_recommendation, tgw_reserved_recommendation,
        cloudwatch_retention_recommendation, pci_scope_recommendation]
  refine ⟨main, fun hmem => ?_⟩
  have h20 := (main twentyProfile
    (by norm_num [Valid, twentyProfile, exampleProfile])).mp hmem
  norm_num [twentyProfile, exampleProfile] at h20

/-- Witness for C6 at a 21-account profile, where the rule fires. -/
theorem budget_rule_iff_accounts_gt_twenty_witness :
    Valid twentyOneProfile ∧
    budget_controls_recommendation (total_annual twentyOneProfile) ∈
      generate_recommendations twentyOneProfile (total_annual twentyOneProfile) :=
  ⟨by norm_num [Valid, twentyOneProfile, exampleProfile],
    (budget_rule_iff_accounts_gt_twenty.1 twentyOneProfile
      (by norm_num [Valid, twentyOneProfile, exampleProfile])).mpr
      (by norm_num [twentyOneProfile, exampleProfile])⟩

/-- C7: the risk analyzer appends one factor per triggered condition
(monthly cost above 2000, more than two regions, more than 50 accounts) and
classifies the level as high for at least two factors, medium for exactly
one, and low for none; the 60-account, three-region profile with monthly
total above 2000 gets risk level high with all three factors present. -/
theorem risk_analysis_classification :
    (∀ (p : OrganizationProfile) (m : ℚ),
      (generate_risk_analysis p m).risk_factors.length =
        ((if 2000 < m then 1 else 0) + (if 2 < p.regions.length then 1 else 0) +
          (if 50 < p.accounts_count then 1 else 0)) ∧
      (high_monthly_spend_factor ∈ (generate_risk_analysis p m).risk_factors ↔
        2000 < m) ∧
      (multi_region_complexity_factor ∈ (generate_risk_analysis p m).risk_factors ↔
        2 < p.regions.length) ∧
      (account_sprawl_factor ∈ (generate_risk_analysis p m).risk_factors ↔
        50 < p.accounts_count) ∧
      (generate_risk_analysis p m).risk_level =
        (if 2 ≤ ((if 2000 < m then (1 : ℕ) else 0) +
            (if 2 < p.regions.length then 1 else 0) +
            (if 50 < p.accounts_count then 1 else 0)) then "high"
          else if ((if 2000 < m then (1 : ℕ) else 0) +
            (if 2 < p.regions.length then 1 else 0) +
            (if 50 < p.accounts_count then 1 else 0)) = 1 then "medium"
          else "low")) ∧
    2000 < total_monthly sprawlProfile ∧
    (generate_risk_analysis sprawlProfile (total_monthly sprawlProfile)).risk_level =
      "high" ∧
    high_monthly_spend_factor ∈
      (generate_risk_analysis sprawlProfile (total_monthly sprawlProfile)).risk_factors ∧
    multi_region_complexity_factor ∈
      (generate_risk_analysis sprawlProfile (total_monthly sprawlProfile)).risk_factors ∧
    account_sprawl_factor ∈
      (generate_risk_analysis sprawlProfile (total_monthly sprawlProfile)).risk_factors := by
  have main : ∀ (p : OrganizationProfile) (m : ℚ),
      (generate_risk_analysis p m).risk_factors.length =
        ((if 2000 < m then 1 else 0) + (if 2 < p.regions.length then 1 else 0) +
          (if 50 < p.accounts_count then 1 else 0)) ∧
      (high_monthly_spend_factor ∈ (generate_risk_analysis p m).risk_factors ↔
        2000 < m) ∧
      (multi_region_complexity_factor ∈ (generate_risk_analysis p m).risk_factors ↔
        2 < p.regions.length) ∧
      (account_sprawl_factor ∈ (generate_risk_analysis p m).risk_factors ↔
        50 < p.accounts_count) ∧
      (generate_risk_analysis p m).risk_level =
        (if 2 ≤ ((if 2000 < m then (1 : ℕ) else 0) +
            (if 2 < p.regions.length then 1 else 0) +
            (if 50 < p.accounts_count then 1 else 0)) then "high"
          else if ((if 2000 < m then (1 : ℕ) else 0) +
            (if 2 < p.regions.length then 1 else 0) +
            (if 50 < p.accounts_count then 1 else 0)) = 1 then "medium"
          else "low") := by
    intro p m
    unfold generate_risk_analysis
    split_ifs <;>
      simp_all [high_monthly_spend_factor, multi_region_complexity_factor,
        account_sprawl_factor]
  have hv : Valid sprawlProfile :=
    valid_of _ (by norm_num [sprawlProfile]) (by norm_num [sprawlProfile])
      (by simp [sprawlProfile]) (by norm_num [sprawlProfile])
      (by norm_num [sprawlProfile]) (by norm_num [sprawlProfile])
  have htgw : (calculate_transit_gateway_costs sprawlProfile).monthly_cost = 12974 := by
    simp only [calculate_transit_gateway_costs, tgw_attachment_cost,
      tgw_total_attachments, tgw_data_gb, tgw_data_processing_cost,
      AWSPricing.TGW_ATTACHMENT_HOURLY, AWSPricing.TGW_DATA_PROCESSING_PER_GB,
      sprawlProfile]
    norm_num
  have hm : 2000 < total_monthly sprawlProfile := by
    have h1 := guardduty_monthly_nonneg _ hv
    have h2 := config_monthly_nonneg _ hv
    have h4 := cloudtrail_monthly_nonneg _ hv
    have h5 := cloudwatch_monthly_nonneg _ hv
    have h6 := security_hub_monthly_nonneg _ hv
    have h7 := backup_monthly_nonneg _ hv
    have hct : (calculate_control_tower_costs sprawlProfile).monthly_cost =
        AWSPricing.CONTROL_TOWER_BASE := rfl
    have hbase : AWSPricing.CONTROL_TOWER_BASE = 89.10 := rfl
    rw [total_monthly_eq, hct, hbase, htgw]
    linarith
  have hreg : 2 < sprawlProfile.regions.length := by norm_num [sprawlProfile]
  have hacc : (50 : ℤ) < sprawlProfile.accounts_count := by norm_num [sprawlProfile]
  obtain ⟨hlen, hf1, hf2, hf3, hlev⟩ := main sprawlProfile (total_monthly sprawlProfile)
  refine ⟨main, hm, ?_, hf1.mpr hm, hf2.mpr hreg, hf3.mpr hacc⟩
  rw [hlev, if_pos hm, if_pos hreg, if_pos hacc]
  norm_num

/-- C8: every calculator is total on valid profiles — with each Python
division routed through `pyDiv`, the checked pipeline returns exactly the
unchecked service list (the only denominators inside calculators are the
literal `100000`) — and the arithmetic edge cases degrade to zero-valued
contributions: an empty compliance-framework list zeroes the Security Hub
compliance term, and zero monthly data zeroes every data-driven term. -/
theorem calculators_total_and_zero_edge_cases (p : OrganizationProfile) (_h : Valid p) :
    services_checked p = some (services p) ∧
    (p.compliance_requirements = [] → security_hub_compliance_cost p = 0) ∧
    (p.expected_data_gb_monthly = 0 →
      guardduty_cloudtrail_events_cost p = 0 ∧ guardduty_dns_logs_cost p = 0 ∧
      tgw_data_processing_cost p = 0 ∧ cloudtrail_data_events_cost p = 0 ∧
      cloudtrail_insights_cost p = 0 ∧ cloudwatch_ingestion_cost p = 0 ∧
      cloudwatch_storage_cost p = 0) := by
  refine ⟨?_, ?_, ?_⟩
  · simp only [services_checked, calculate_guardduty_costs_checked,
      calculate_cloudtrail_costs_checked, calculate_security_hub_costs_checked,
      pyDiv, services, calculate_guardduty_costs, calculate_cloudtrail_costs,
      calculate_security_hub_costs, guardduty_cloudtrail_events_cost,
      cloudtrail_data_events_cost, cloudtrail_insights_cost,
      security_hub_ingestion_cost, security_hub_compliance_cost]
    norm_num [Option.bind_eq_bind]
  · intro h0
    simp [security_hub_compliance_cost, security_hub_compliance_checks_per_month, h0]
  · intro h0
    refine ⟨?_, ?_, ?_, ?_, ?_, ?_, ?_⟩ <;>
      simp [guardduty_cloudtrail_events_cost, guardduty_events_per_month,
        guardduty_dns_logs_cost, tgw_data_processing_cost, tgw_data_gb,
        cloudtrail_data_events_cost, cloudtrail_data_events_per_month,
        cloudtrail_insights_cost, cloudwatch_ingestion_cost,
        cloudwatch_log_ingestion_gb, cloudwatch_storage_cost, h0]

/-- Witness for C8 at the example profile. -/
theorem calculators_total_and_zero_edge_cases_witness :
    Valid exampleProfile ∧
    services_checked exampleProfile = some (services exampleProfile) :=
  ⟨by norm_num [Valid, exampleProfile],
    (calculators_total_and_zero_edge_cases exampleProfile
      (by norm_num [Valid, exampleProfile])).1⟩

/-- C9: on every valid profile the monthly total is bounded below by the
Control Tower base price, so every denominator used by
`generate_cost_report` itself (`total_monthly`, `total_annual`,
`employees`, `accounts_count`) is strictly positive and its percentage and
per-employee/per-account divisions cannot divide by zero. -/
theorem report_denominators_positive (p : OrganizationProfile) (h : Valid p) :
    AWSPricing.CONTROL_TOWER_BASE ≤ total_monthly p ∧
    ∀ d ∈ report_denominators p, 0 < d := by
  have hb := total_monthly_ge_base p h
  have hbase : AWSPricing.CONTROL_TOWER_BASE = 89.10 := rfl
  have hm : (0 : ℚ) < total_monthly p := by rw [hbase] at hb; linarith
  refine ⟨hb, ?_⟩
  intro d hd
  simp only [report_denominators, List.mem_cons, List.not_mem_nil, or_false] at hd
  rcases hd with h1 | h1 | h1 | h1 <;> subst h1
  · exact hm
  · rw [total_annual_eq_twelve_total_monthly]
    linarith
  · exact_mod_cast lt_of_lt_of_le Int.zero_lt_one h.2.1
  · exact_mod_cast lt_of_lt_of_le Int.zero_lt_one h.1

/-- Witness for C9 at the example profile. -/
theorem report_denominators_positive_witness :
    Valid exampleProfile ∧
    AWSPricing.CONTROL_TOWER_BASE ≤ total_monthly exampleProfile :=
  ⟨by norm_num [Valid, exampleProfile],
    (report_denominators_positive exampleProfile
      (by norm_num [Valid, exampleProfile])).1⟩

/-- C10: for every valid profile the recommendation list has between 2 and
4 entries, and its first two entries are always the Transit Gateway
reserved-instances recommendation (savings `0.15 * total_annual`) followed
by the CloudWatch log-retention recommendation (savings
`0.12 * total_annual`). -/
theorem recommendations_shape (p : OrganizationProfile) (_h : Valid p) :
    2 ≤ (generate_recommendations p (total_annual p)).length ∧
    (generate_recommendations p (total_annual p)).length ≤ 4 ∧
    (generate_recommendations p (total_annual p)).take 2 =
      [tgw_reserved_recommendation (total_annual p),
        cloudwatch_retention_recommendation (total_annual p)] ∧
    (tgw_reserved_recommendation (total_annual p)).estimated_savings_annual =
      total_annual p * 0.15 ∧
    (cloudwatch_retention_recommendation (total_annual p)).estimated_savings_annual =
      total_annual p * 0.12 := by
  refine ⟨?_, ?_, ?_, rfl, rfl⟩ <;>
    · unfold generate_recommendations
      split_ifs <;> simp

/-- Witness for C10 at the example profile. -/
theorem recommendations_shape_witness :
    Valid exampleProfile ∧
    2 ≤ (generate_recommendations exampleProfile (total_annual exampleProfile)).length :=
  ⟨by norm_num [Valid, exampleProfile],
    (recommendations_shape exampleProfile
      (by norm_num [Valid, exampleProfile])).1⟩

end LandingZone
